import Mathlib

/-!
Shallow embedding of the tool functions of the agent-test repository:
the Wikipedia animal lookup (`wikipedia_animal_qa.py`), the static map
fetch (`maptools.py`), the map-image tool and elevation tool
(`geo_agent.py`), the soil-pH fetch (`soil_agent.py`), the geocoding and
weather tools (`weather.at.py`) and the test module (`tests/test_agent.py`).

External services (HTTP client, geocoder, date parser, elevation and
soil-grid clients) are modelled as explicit environment records; a call
into such a service yields either a value or a Python exception, encoded
with `Except PyExn`.  Functions that issue HTTP requests additionally
return the list of requests they issued, so that claims about which calls
are made (and in which order) can be stated.
-/

/-- Python exceptions relevant to these scripts. -/
inductive PyExn where
  | valueError (msg : String)
  | attributeError (attr : String)
  | parserError (input : String)
  | assertionError (msg : String)
  | typeError (msg : String)
  | other (msg : String)
  deriving Repr, DecidableEq

/- ------------------------------------------------------------------
   Wikipedia animal lookup (`wikipedia_animal_qa.py`, `get_animal_info`)
   ------------------------------------------------------------------ -/

/-- An HTTP request issued by `get_animal_info` against the Wikipedia API:
either the search request (carrying the `srsearch` parameter) or the
extract request (carrying the page title). -/
inductive WikiReq where
  | search (srsearch : String)
  | extract (title : String)
  deriving Repr, DecidableEq

/-- Outcomes of the two Wikipedia API calls.  `searchResult` bundles the
whole search step (`client.get`, `raise_for_status`, `.json()`, the key
accesses down to `search_data["query"]["search"]`): an exception anywhere
in it is an `.error`, otherwise the list of page titles of the search
hits.  `extractResult` likewise bundles the extract step for a given
title, yielding the extract string (the `.get("extract", "")` default
makes a missing key the empty string). -/
structure WikiEnv where
  searchResult : Except PyExn (List String)
  extractResult : String → Except PyExn String

/-- Embedding of `get_animal_info` (wikipedia_animal_qa.py, lines 60-108).
Returns the string result together with the list of HTTP requests issued,
in order.  The surrounding `try`/`except Exception` catches any exception
and turns it into the error string, so the result type carries no
exception. -/
def get_animal_info (env : WikiEnv) (animal_name : String) :
    String × List WikiReq :=
  let searchReq := WikiReq.search (animal_name ++ " animal")
  match env.searchResult with
  | .error e =>
      ( "Error retrieving information about " ++ animal_name ++ ": " ++ reprStr e,
       [searchReq])
  | .ok [] =>
      ( "No information found for " ++ animal_name ++ ".", [searchReq])
  | .ok (page_title :: _) =>
      match env.extractResult page_title with
      | .error e =>
          ( "Error retrieving information about " ++ animal_name ++ ": " ++ reprStr e,
           [searchReq, WikiReq.extract page_title])
      | .ok extract =>
          if extract = "" then
            ( "Found page " ++ page_title ++ " but couldn\x27t extract any information.",
             [searchReq, WikiReq.extract page_title])
          else
            ( "Information about " ++ page_title ++ " from Wikipedia:\n\n"
               ++ extract.take 800 ++ "...",
             [searchReq, WikiReq.extract page_title])

/- ------------------------------------------------------------------
   Static map fetch (`maptools.py`, `get_static_map`)
   ------------------------------------------------------------------ -/

/-- Outcome of `requests.get` followed by `response.raise_for_status()`
in `get_static_map`: the response body on success, a
`requests.RequestException` (which `raise_for_status` also raises), or
some exception of another class. -/
inductive HttpOutcome where
  | success (content : List Nat)
  | requestException (msg : String)
  | otherException (msg : String)
  deriving Repr, DecidableEq

/-- Environment of `get_static_map`: the value of the
`GOOGLE_MAPS_API_KEY` environment variable (`none` when unset) and the
outcome of the single HTTP request. -/
structure MapEnv where
  apiKey : Option String
  http : HttpOutcome

/-- The parameters of the static-map HTTP request as built by
`get_static_map` (the `params` dict of maptools.py, lines 27-34). -/
structure MapCall where
  latitude : Rat
  longitude : Rat
  zoom : Int
  size : Int × Int
  markerColor : String
  maptype : String
  key : String
  deriving Repr, DecidableEq

/-- Embedding of `get_static_map` (maptools.py, lines 6-43).  Returns
either the Python-level result (`some` raw bytes, or `none` when a
`RequestException` was caught) or a propagated exception, together with
the list of HTTP requests issued.  `if not api_key` is true both when the
variable is unset and when it is the empty string. -/
def get_static_map (env : MapEnv) (latitude longitude : Rat)
    (zoom : Int) (size : Int × Int)
    (marker_color : String) (maptype : String) :
    Except PyExn (Option (List Nat)) × List MapCall :=
  match env.apiKey with
  | none =>
      (.error (.valueError "GOOGLE_MAPS_API_KEY environment variable not set"), [])
  | some k =>
      if k = "" then
        (.error (.valueError "GOOGLE_MAPS_API_KEY environment variable not set"), [])
      else
        let call : MapCall :=
          ⟨latitude, longitude, zoom, size, marker_color, maptype, k⟩
        match env.http with
        | .success content => (.ok (some content), [call])
        | .requestException _ => (.ok none, [call])
        | .otherException m => (.error (.other m), [call])

/- ------------------------------------------------------------------
   Map-image tool (`geo_agent.py`, `fetch_map_image_and_interpret`)
   ------------------------------------------------------------------ -/

/-- The `BinaryContent` wrapper of the agent framework, as constructed at
geo_agent.py line 70: a plain dataclass holding the payload and a media
type.  It defines neither `__bool__` nor `__len__`, so Python truthiness
of an instance is unconditionally `True`; `pyTruthy` records that. -/
structure BinaryContent where
  data : Option (List Nat)
  media_type : String
  deriving Repr, DecidableEq

/-- Python truthiness of a `BinaryContent` instance.  The class defines
neither `__bool__` nor `__len__`, so `bool(obj)` falls back to the
default object truthiness, which is `True` for every instance. -/
def BinaryContent.pyTruthy (_ : BinaryContent) : Bool := true

/-- Outcome of `fetch_map_image_and_interpret`: either it raises
`ModelRetry` with the given message, or it forwards the constructed
`BinaryContent` to the `map_reader_agent`. -/
inductive FetchOutcome where
  | modelRetry (msg : String)
  | interpret (img : BinaryContent)
  deriving Repr, DecidableEq

/-- Embedding of the tool body of `fetch_map_image_and_interpret`
(geo_agent.py, lines 53-83) up to the hand-off to `map_reader_agent`:
`img_bytes` is the result of the `get_static_map` call (`none` when that
call returned `None`), the `BinaryContent` wrapper is constructed
unconditionally, and the retry is raised only when `not img` holds. -/
def fetch_map_image_and_interpret (img_bytes : Option (List Nat)) :
    FetchOutcome :=
  let img : BinaryContent := ⟨img_bytes, "image/png"⟩
  if !img.pyTruthy then
    FetchOutcome.modelRetry "Could not find image for structure"
  else
    FetchOutcome.interpret img

/- ------------------------------------------------------------------
   Elevation tool (`geo_agent.py`, `get_elev`)
   ------------------------------------------------------------------ -/

/-- Environment of `get_elev`: the `nmdc_geoloc_tools.elevation` service,
returning the elevation in meters for a coordinate pair or raising. -/
structure ElevEnv where
  elevation : Rat × Rat → Except PyExn Rat

/-- Embedding of `get_elev` (geo_agent.py, lines 34-45): it returns
`elevation((lat, lon))` directly, with no exception handling of its
own. -/
def get_elev (env : ElevEnv) (lat lon : Rat) : Except PyExn Rat :=
  env.elevation (lat, lon)

/- ------------------------------------------------------------------
   Soil-pH tool (`soil_agent.py`, `get_soil_ph_image`)
   ------------------------------------------------------------------ -/

/-- Environment of `get_soil_ph_image`: the outcome of
`soil_grids.get_coverage_data` for a given bounding box, which on
success populates `soil_grids.metadata`, modelled as the list of its
key-value items rendered as strings. -/
structure SoilEnv where
  coverage : Rat → Rat → Rat → Rat → Except PyExn (List (String × String))

/-- Embedding of `get_soil_ph_image` (soil_agent.py, lines 38-73): on
success the metadata items are joined into a summary string; the
`except Exception` arm turns any exception into the fixed error
string. -/
def get_soil_ph_image (env : SoilEnv) (west south east north : Rat) :
    String :=
  match env.coverage west south east north with
  | .ok items =>
      "Metadata summary:\n"
        ++ String.intercalate "\n" (items.map (fun kv => kv.1 ++ ": " ++ kv.2))
  | .error _ => "An error occurred while fetching soil pH data."

/- ------------------------------------------------------------------
   Geocoding and weather tools (`weather.at.py`, `get_loc`, `get_weather`)
   ------------------------------------------------------------------ -/

/-- Environment of the weather script: the Nominatim geocoder (`none`
when no match is found, in which case Python returns `None`), the
`dateutil` parser (`none` when the string is rejected, in which case the
parser raises), and the `meteostat` `Daily(...).fetch().to_dict()`
pipeline producing the weather dictionary, keyed by column name with a
list of (day, value) observations. -/
structure WeatherEnv where
  geocode : String → Option (Rat × Rat)
  parse : String → Option Int
  fetchDaily : Rat × Rat → Int → Int → Except PyExn (List (String × List (Int × Rat)))

/-- Embedding of `get_loc` (weather.at.py, lines 36-47): no check that
the geocoder found a match, so a `None` result makes the attribute
access `loc.latitude` raise `AttributeError`. -/
def get_loc (env : WeatherEnv) (location_string : String) :
    Except PyExn (Rat × Rat) :=
  match env.geocode location_string with
  | none => .error (.attributeError "latitude")
  | some (lat, lon) => .ok (lat, lon)

/-- Embedding of `get_weather` (weather.at.py, lines 50-68).  The boolean
component records whether the `Daily(...).fetch()` call was issued.
Evaluation order follows the source: `get_loc` (inside `Point(*...)`),
then `parser.parse(start_date)`, then `parser.parse(end_date)`, then the
fetch; there is no `try` block, so every exception propagates. -/
def get_weather (env : WeatherEnv)
    (location_string start_date end_date : String) :
    Except PyExn (List (String × List (Int × Rat))) × Bool :=
  match get_loc env location_string with
  | .error e => (.error e, false)
  | .ok pt =>
      match env.parse start_date with
      | none => (.error (.parserError start_date), false)
      | some st =>
          match env.parse end_date with
          | none => (.error (.parserError end_date), false)
          | some en =>
              match env.fetchDaily pt st en with
              | .error e => (.error e, true)
              | .ok d => (.ok d, true)

/- ------------------------------------------------------------------
   Test module (`tests/test_agent.py`)
   ------------------------------------------------------------------ -/

/-- The `ideal` column of the parametrized test: `None`, a string, an
int, or a float (the last two branches exist in the test body though no
parametrized row uses them). -/
inductive IdealVal where
  | noIdeal
  | str (s : String)
  | int (n : Int)
  | flt (x : Rat)
  deriving Repr, DecidableEq

/-- Python substring membership `needle in haystack` on strings. -/
def strIn (needle haystack : String) : Bool :=
  let n := needle.toList
  let h := haystack.toList
  (List.range (h.length + 1)).any (fun i => n.isPrefixOf (h.drop i))

/-- The parametrized (query, ideal) rows of `test_agent`
(tests/test_agent.py, lines 5-12). -/
def testParams : List (String × IdealVal) :=
  [( "What is the temperature at 35.97583846 and long=-84.2743123", IdealVal.noIdeal),
   ( "What is the elevation at 35.97583846 and long=-84.2743123", IdealVal.str "293"),
   ( "Describe the features you see at 35.97583846 and long=-84.2743123", IdealVal.str "lake")]

/-- Embedding of the body of `test_agent` (tests/test_agent.py, lines
13-25) as a function of the free-text answer `data` returned by the
agent (`none` when `r.data` is `None`).  `assert data is not None` fails on `none`; for a
string ideal the test asserts `ideal.lower() in data.lower()`; for an
int ideal `ideal == data` compares an int with a string, which is
`False` in Python, so the assert fails; for a float ideal
`abs(ideal - data)` on a string raises `TypeError`. -/
def test_agent (data : Option String) (ideal : IdealVal) :
    Except PyExn Unit :=
  match data with
  | none => .error (.assertionError "data is not None")
  | some d =>
      match ideal with
      | .noIdeal => .ok ()
      | .str s =>
          if strIn s.toLower d.toLower then .ok ()
          else .error (.assertionError "ideal.lower() in data.lower()")
      | .int _ => .error (.assertionError "ideal == data")
      | .flt _ => .error (.typeError "unsupported operand type for float and str")

/-- Whether a test body run counts as a pass (no exception). -/
def testPasses (r : Except PyExn Unit) : Bool :=
  match r with
  | .ok _ => true
  | .error _ => false

/- ------------------------------------------------------------------
   Concrete environments used by witnesses
   ------------------------------------------------------------------ -/

/-- A Wikipedia environment in which the search finds one page and the
extract is short and nonempty. -/
def wikiEnvOk : WikiEnv :=
  ⟨.ok [ "Tiger" ], fun _ => .ok "The tiger is a large cat."⟩

/-- A Wikipedia environment in which the search request raises. -/
def wikiEnvErr : WikiEnv :=
  ⟨.error (.other "boom"), fun _ => .ok ""⟩

/-- A map environment with the API key set and a successful response. -/
def mapEnvOk : MapEnv :=
  ⟨some "KEY", .success [1, 2, 3]⟩

/-- A map environment with the API key unset. -/
def mapEnvNoKey : MapEnv :=
  ⟨none, .success []⟩

/-- A soil environment whose coverage fetch succeeds with one metadata
item. -/
def soilEnvOk : SoilEnv :=
  ⟨fun _ _ _ _ => .ok [( "width", "100" )]⟩

/-- An elevation environment reporting a fixed elevation. -/
def elevEnvOk : ElevEnv :=
  ⟨fun _ => .ok 293⟩

/-- A weather environment whose geocoder finds no match. -/
def weatherEnvNoMatch : WeatherEnv :=
  ⟨fun _ => none, fun _ => some 1, fun _ _ _ => .ok []⟩

/-- A weather environment whose geocoder succeeds but whose date parser
rejects every string. -/
def weatherEnvBadDate : WeatherEnv :=
  ⟨fun _ => some (42, -85), fun _ => none, fun _ _ _ => .ok []⟩

/- ------------------------------------------------------------------
   Claim theorems
   ------------------------------------------------------------------ -/

/-- C1: for every animal name, whenever the Wikipedia search succeeds
with at least one hit and the extract for the found page is nonempty,
`get_animal_info` issues exactly two HTTP calls in order — the search
request (with `srsearch` set to the name followed by " animal"), then
the extract request for the found page — and returns the summary built
from the first 800 characters of the extract with a trailing
ellipsis. -/
theorem get_animal_info_two_calls_truncated
    (env : WikiEnv) (animal_name page_title : String)
    (rest : List String) (extract : String)
    (hsearch : env.searchResult = .ok (page_title :: rest))
    (hextract : env.extractResult page_title = .ok extract)
    (hne : extract ≠ "") :
    get_animal_info env animal_name =
      ( "Information about " ++ page_title ++ " from Wikipedia:\n\n"
          ++ extract.take 800 ++ "...",
       [WikiReq.search (animal_name ++ " animal"), WikiReq.extract page_title]) := by
  simp [get_animal_info, hsearch, hextract, hne]

/-- Witness for C1 at a concrete environment and input. -/
theorem get_animal_info_two_calls_truncated_witness :
    get_animal_info wikiEnvOk "tiger" =
      ( "Information about " ++ "Tiger" ++ " from Wikipedia:\n\n"
          ++ ("The tiger is a large cat.").take 800 ++ "...",
       [WikiReq.search ("tiger" ++ " animal"), WikiReq.extract "Tiger"]) :=
  get_animal_info_two_calls_truncated wikiEnvOk "tiger" "Tiger" []
    "The tiger is a large cat." rfl rfl (by decide)

/-- C2: the `ModelRetry` branch of `fetch_map_image_and_interpret` is
unreachable: for every `get_static_map` result — including the empty
result `none` — the tool constructs the always-truthy `BinaryContent`
wrapper and forwards it (with whatever payload it holds) to the
map-reader agent, never signalling a retry. -/
theorem fetch_map_retry_unreachable :
    ∀ img_bytes : Option (List Nat),
      fetch_map_image_and_interpret img_bytes =
        FetchOutcome.interpret ⟨img_bytes, "image/png"⟩ :=
  fun _ => rfl

/-- C3: with the maps API key set (to a nonempty string),
`get_static_map` issues the one HTTP request and returns the raw
response bytes on success, returns `None` when the request raises a
`RequestException` (the only failure it handles), and propagates any
exception of another class. -/
theorem get_static_map_key_set_spec
    (env : MapEnv) (k : String) (lat lon : Rat) (zoom : Int)
    (size : Int × Int) (mc mt : String)
    (hk : env.apiKey = some k) (hne : k ≠ "") :
    (∀ content, env.http = HttpOutcome.success content →
        get_static_map env lat lon zoom size mc mt =
          (.ok (some content), [⟨lat, lon, zoom, size, mc, mt, k⟩])) ∧
    (∀ msg, env.http = HttpOutcome.requestException msg →
        get_static_map env lat lon zoom size mc mt =
          (.ok none, [⟨lat, lon, zoom, size, mc, mt, k⟩])) ∧
    (∀ msg, env.http = HttpOutcome.otherException msg →
        get_static_map env lat lon zoom size mc mt =
          (.error (.other msg), [⟨lat, lon, zoom, size, mc, mt, k⟩])) := by
  refine ⟨?_, ?_, ?_⟩ <;> intro x hx <;> simp [get_static_map, hk, hne, hx]

/-- Witness for C3 at a concrete environment and input. -/
theorem get_static_map_key_set_spec_witness :
    get_static_map mapEnvOk 1 2 13 (600, 400) "red" "satellite" =
      (.ok (some [1, 2, 3]), [⟨1, 2, 13, (600, 400), "red", "satellite", "KEY"⟩]) :=
  (get_static_map_key_set_spec mapEnvOk "KEY" 1 2 13 (600, 400) "red" "satellite"
    rfl (by decide)).1 [1, 2, 3] rfl

/-- C4: `get_soil_ph_image` returns the text summary of the metadata
items when the coverage fetch succeeds, and the fixed error string when
any exception is raised, for every bounding box. -/
theorem get_soil_ph_image_spec
    (env : SoilEnv) (west south east north : Rat) :
    (∀ items, env.coverage west south east north = .ok items →
        get_soil_ph_image env west south east north =
          "Metadata summary:\n"
            ++ String.intercalate "\n" (items.map (fun kv => kv.1 ++ ": " ++ kv.2))) ∧
    (∀ exn, env.coverage west south east north = .error exn →
        get_soil_ph_image env west south east north =
          "An error occurred while fetching soil pH data.") := by
  constructor <;> intro x hx <;> simp [get_soil_ph_image, hx]

/-- Witness for C4 at a concrete environment and bounding box. -/
theorem get_soil_ph_image_spec_witness :
    get_soil_ph_image soilEnvOk 1 2 3 4 =
      "Metadata summary:\n"
        ++ String.intercalate "\n" ([( "width", "100" )].map (fun kv => kv.1 ++ ": " ++ kv.2)) :=
  (get_soil_ph_image_spec soilEnvOk 1 2 3 4).1 [( "width", "100" )] rfl

/-- C5: `get_animal_info` never lets an exception escape (its embedding
is a total function into strings): an exception in the search step, and
likewise an exception in the extract step, is caught and turned into the
error string, and an empty search result yields the not-found string. -/
theorem get_animal_info_catches_all
    (env : WikiEnv) (name : String) :
    (∀ e, env.searchResult = .error e →
        get_animal_info env name =
          ( "Error retrieving information about " ++ name ++ ": " ++ reprStr e,
           [WikiReq.search (name ++ " animal")])) ∧
    (env.searchResult = .ok [] →
        get_animal_info env name =
          ( "No information found for " ++ name ++ ".",
           [WikiReq.search (name ++ " animal")])) ∧
    (∀ t ts e, env.searchResult = .ok (t :: ts) →
        env.extractResult t = .error e →
        get_animal_info env name =
          ( "Error retrieving information about " ++ name ++ ": " ++ reprStr e,
           [WikiReq.search (name ++ " animal"), WikiReq.extract t])) := by
  refine ⟨fun e he => ?_, fun he => ?_, fun t ts e ht he => ?_⟩
  · simp [get_animal_info, he]
  · simp [get_animal_info, he]
  · simp [get_animal_info, ht, he]

/-- Witness for C5 at a concrete environment and input. -/
theorem get_animal_info_catches_all_witness :
    get_animal_info wikiEnvErr "tiger" =
      ( "Error retrieving information about " ++ "tiger" ++ ": "
          ++ reprStr (PyExn.other "boom"),
       [WikiReq.search ("tiger" ++ " animal")]) :=
  (get_animal_info_catches_all wikiEnvErr "tiger").1 (.other "boom") rfl

/-- C6: `get_loc` performs no validation of the geocoder result: when the
geocoder returns no match, the attribute access on `None` raises an
`AttributeError`, and when a match is found the coordinate pair is
returned. -/
theorem get_loc_spec (env : WeatherEnv) (location_string : String) :
    (env.geocode location_string = none →
        get_loc env location_string = .error (.attributeError "latitude")) ∧
    (∀ lat lon, env.geocode location_string = some (lat, lon) →
        get_loc env location_string = .ok (lat, lon)) := by
  constructor
  · intro h
    simp [get_loc, h]
  · intro lat lon h
    simp [get_loc, h]

/-- Witness for C6 at a concrete environment and input. -/
theorem get_loc_spec_witness :
    get_loc weatherEnvNoMatch "Nowhere" = .error (.attributeError "latitude") :=
  (get_loc_spec weatherEnvNoMatch "Nowhere").1 rfl

/-- C7: `get_weather` has no date-parsing error handling: once the
location geocodes, a start date the parser rejects makes the parse
exception propagate with no weather fetch issued, as does an end date
the parser rejects; and when both dates parse and the fetch succeeds,
the daily-weather dictionary is returned. -/
theorem get_weather_spec
    (env : WeatherEnv) (loc sd ed : String) (pt : Rat × Rat)
    (hgeo : get_loc env loc = .ok pt) :
    (env.parse sd = none →
        get_weather env loc sd ed = (.error (.parserError sd), false)) ∧
    (∀ st, env.parse sd = some st → env.parse ed = none →
        get_weather env loc sd ed = (.error (.parserError ed), false)) ∧
    (∀ st en d, env.parse sd = some st → env.parse ed = some en →
        env.fetchDaily pt st en = .ok d →
        get_weather env loc sd ed = (.ok d, true)) := by
  refine ⟨fun h => ?_, fun st hst h => ?_, fun st en d hst hen h => ?_⟩
  · simp [get_weather, hgeo, h]
  · simp [get_weather, hgeo, hst, h]
  · simp [get_weather, hgeo, hst, hen, h]

/-- Witness for C7 at a concrete environment and input. -/
theorem get_weather_spec_witness :
    get_weather weatherEnvBadDate "Kalamazoo" "not a date" "later" =
      (.error (.parserError "not a date"), false) :=
  (get_weather_spec weatherEnvBadDate "Kalamazoo" "not a date" "later"
    (42, -85) rfl).1 rfl

/-- C8: `get_elev` returns exactly the elevation the underlying service
reports for the coordinate pair, and propagates exactly the exception
the service raises — no exception is caught inside the tool. -/
theorem get_elev_spec (env : ElevEnv) (lat lon : Rat) :
    (∀ v, env.elevation (lat, lon) = .ok v → get_elev env lat lon = .ok v) ∧
    (∀ e, env.elevation (lat, lon) = .error e → get_elev env lat lon = .error e) := by
  constructor <;> intro x hx <;> simp [get_elev, hx]

/-- Witness for C8 at a concrete environment and input. -/
theorem get_elev_spec_witness :
    get_elev elevEnvOk 35 (-84) = .ok 293 :=
  (get_elev_spec elevEnvOk 35 (-84)).1 293 rfl

/-- C9: when the maps API key environment variable is unset (or empty,
which `if not api_key` also treats as missing), `get_static_map` raises
a `ValueError` and issues no HTTP request, for every input. -/
theorem get_static_map_no_key_raises
    (env : MapEnv) (lat lon : Rat) (zoom : Int) (size : Int × Int)
    (mc mt : String)
    (hk : env.apiKey = none ∨ env.apiKey = some "") :
    get_static_map env lat lon zoom size mc mt =
      (.error (.valueError "GOOGLE_MAPS_API_KEY environment variable not set"), []) := by
  rcases hk with h | h <;> simp [get_static_map, h]

/-- Witness for C9 at a concrete environment and input. -/
theorem get_static_map_no_key_raises_witness :
    get_static_map mapEnvNoKey 1 2 13 (600, 400) "red" "satellite" =
      (.error (.valueError "GOOGLE_MAPS_API_KEY environment variable not set"), []) :=
  get_static_map_no_key_raises mapEnvNoKey 1 2 13 (600, 400) "red" "satellite"
    (Or.inl rfl)

/-- C10: the test body fails for every ideal when the answer is null;
the parametrized rows are exactly the three listed queries, the ones
with a string ideal being the elevation query (ideal "293") and the
features query (ideal "lake"); and on a non-null answer with a string
ideal the test passes exactly when the lowercased ideal is a substring
of the lowercased response. -/
theorem test_agent_spec :
    (∀ i, testPasses (test_agent none i) = false) ∧
    testParams =
      [( "What is the temperature at 35.97583846 and long=-84.2743123", IdealVal.noIdeal),
       ( "What is the elevation at 35.97583846 and long=-84.2743123", IdealVal.str "293"),
       ( "Describe the features you see at 35.97583846 and long=-84.2743123", IdealVal.str "lake")] ∧
    (∀ d s, testPasses (test_agent (some d) (IdealVal.str s)) =
        strIn s.toLower d.toLower) := by
  refine ⟨fun i => rfl, rfl, fun d s => ?_⟩
  cases hb : strIn s.toLower d.toLower <;> simp [test_agent, testPasses, hb]
